import Mathlib

/-!
Shallow embedding of the runtime-filter subsystem of the planner
(source file planner/core/runtime_filter.go).

The Go plan graph is cyclic: a RuntimeFilter holds pointers to its build
hash join and its target table scan, and each of those operators holds a
list of pointers to its attached runtime filters.  The embedding breaks
the cycle by modelling an operator pointer stored inside a filter by the
plan id of the operator (an Int, none standing for a nil pointer), while
the mutable state of the pointed-to operator is passed explicitly to the
method that mutates it and returned updated.
-/

/-- Modelled from the spec: the repository package sessionctx/variable is
not under src.  Per the spec data model, filterType is the enum
consisting of IN and MIN_MAX (variable.In, variable.MinMax in the code). -/
inductive RuntimeFilterType where
  | In
  | MinMax
deriving DecidableEq, Repr

/-- Modelled from the spec: the repository package sessionctx/variable is
not under src.  Per the spec data model, filterMode is the enum UNSET,
LOCAL, GLOBAL; UNSET is the Go zero value of the field, the state before
assignment (the code tests rfMode == 0 for it), and RFLocal, RFGlobal are
the named values variable.RFLocal, variable.RFGlobal. -/
inductive RuntimeFilterMode where
  | UNSET
  | RFLocal
  | RFGlobal
deriving DecidableEq, Repr

/-- Modelled from the spec: expression.Column is not under src.  The spec
treats column references as abstract values consumed, not redefined, with a
unique identity (UniqueID in the code) and a canonical text form (the Go
String method) used in error messages and explain output. -/
structure Column where
  uniqueID : Int
  text : String
deriving DecidableEq, Repr

/-- Go expression.Column.Clone returns a fresh copy of the column record;
in the value semantics of this embedding a copy is the same value. -/
def Column.clone (c : Column) : Column :=
  { uniqueID := c.uniqueID, text := c.text }

/-- Modelled from the spec: the expression tree types are not under src.
An argument of an equi-join predicate is either a column reference or
some other expression kind (descr is its text form); the code performs a
Go type assertion to a column on each argument. -/
inductive Expression where
  | column (c : Column)
  | other (descr : String)
deriving DecidableEq, Repr

/-- Result of the Go type assertion arg.(*expression.Column): a failed
assertion is a runtime type-mismatch error (in Go, a panic), modelled as
the error branch of Except. -/
def Expression.asColumn : Expression → Except String Column
  | .column c => .ok c
  | .other d => .error ("interface conversion: " ++ d ++ " is not *expression.Column")

/-- Modelled from the spec: expression.ScalarFunction is not under src.
The code only reads GetArgs() from the equi-join predicate. -/
structure ScalarFunction where
  getArgs : List Expression
deriving DecidableEq, Repr

/-- Go eqPredicate.GetArgs()[i]: an out-of-range index is a Go runtime
error, modelled as the error branch of Except. -/
def ScalarFunction.argColumn (f : ScalarFunction) (i : Nat) : Except String Column :=
  match f.getArgs.get? i with
  | none => .error ("index out of range in GetArgs")
  | some e => e.asColumn

/-- Modelled from the spec: util.IDGenerator is not under src.  Per spec
4.1 the generator issues strictly increasing identifiers from a fixed
baseline within one compilation session, with no reuse. -/
structure IDGenerator where
  id : Int
deriving DecidableEq, Repr

/-- Modelled from the spec: GetNextID advances the counter and returns the
new identifier; the embedding threads the post-state explicitly. -/
def IDGenerator.GetNextID (g : IDGenerator) : Int × IDGenerator :=
  (g.id + 1, ⟨g.id + 1⟩)

/-- RuntimeFilter record, from the struct in runtime_filter.go.  The Go
fields buildNode and targetNode are pointers into the cyclic plan graph;
they are modelled by the plan id of the pointed-to operator, none being
the nil pointer.  buildNodeID and targetNodeID are the detached integer
ids set only by Clone and read by ToPB; the Go zero value of both is 0. -/
structure RuntimeFilter where
  id : Int
  buildNode : Option Int
  srcExprList : List Column
  targetExprList : List Column
  rfType : RuntimeFilterType
  rfMode : RuntimeFilterMode
  targetNode : Option Int
  buildNodeID : Int
  targetNodeID : Int
deriving DecidableEq, Repr

/-- PhysicalHashJoin, restricted to the fields this subsystem reads:
plan id, RightIsBuildSide(), the session list of enabled runtime filter
types (ctx.GetSessionVars().GetRuntimeFilterTypes()), and the outbound
runtimeFilterList the assigner appends to. -/
structure PhysicalHashJoin where
  id : Int
  rightIsBuildSide : Bool
  rfTypes : List RuntimeFilterType
  runtimeFilterList : List RuntimeFilter
deriving DecidableEq, Repr

/-- PhysicalTableScan, restricted to the fields this subsystem touches:
plan id, the inbound runtimeFilterList, and maxWaitTimeMs. -/
structure PhysicalTableScan where
  id : Int
  runtimeFilterList : List RuntimeFilter
  maxWaitTimeMs : Int
deriving DecidableEq, Repr

/-- The fan-out loop of NewRuntimeFilter: one RuntimeFilter per enabled
type, each with a fresh id from the generator, the shared srcExprList and
the build node pointer; every other field keeps its Go zero value. -/
def buildRFList (buildNodeId : Int) (srcExprList : List Column) :
    List RuntimeFilterType → IDGenerator → List RuntimeFilter × IDGenerator
  | [], g => ([], g)
  | rfType :: rest, g =>
    let p := g.GetNextID
    let rf : RuntimeFilter :=
      { id := p.1
        buildNode := some buildNodeId
        srcExprList := srcExprList
        targetExprList := []
        rfType := rfType
        rfMode := .UNSET
        targetNode := none
        buildNodeID := 0
        targetNodeID := 0 }
    let rec1 := buildRFList buildNodeId srcExprList rest p.2
    (rf :: rec1.1, rec1.2)

/-- NewRuntimeFilter from runtime_filter.go lines 79-103.  The build-side
flag picks which predicate argument becomes the sole source expression
and which argument supplies the returned target column identity; the Go
type assertions are performed in source order (in the right-build branch
argument 1 first, then argument 0).  The generator post-state is returned
explicitly. -/
def NewRuntimeFilter (rfIDGenerator : IDGenerator) (eqPredicate : ScalarFunction)
    (buildNode : PhysicalHashJoin) :
    Except String (List RuntimeFilter × Int × IDGenerator) :=
  if buildNode.rightIsBuildSide then
    match eqPredicate.argColumn 1 with
    | .error e => .error e
    | .ok src =>
      match eqPredicate.argColumn 0 with
      | .error e => .error e
      | .ok tgt =>
        let p := buildRFList buildNode.id [src] buildNode.rfTypes rfIDGenerator
        .ok (p.1, tgt.uniqueID, p.2)
  else
    match eqPredicate.argColumn 0 with
    | .error e => .error e
    | .ok src =>
      match eqPredicate.argColumn 1 with
      | .error e => .error e
      | .ok tgt =>
        let p := buildRFList buildNode.id [src] buildNode.rfTypes rfIDGenerator
        .ok (p.1, tgt.uniqueID, p.2)

/-- Post-state of one assign call: the updated filter and the updated
states of the two operators the Go method mutates through pointers. -/
structure AssignResult where
  rf : RuntimeFilter
  buildNode : PhysicalHashJoin
  targetNode : PhysicalTableScan
deriving DecidableEq, Repr

/-- assign from runtime_filter.go lines 105-116, statement by statement:
set the target pointer; if the target scan had no inbound filter yet set
its maxWaitTimeMs to 10000; append the target expression; append the
filter to the build join outbound list and to the target scan inbound
list.  The method has no error path.  buildNode is the state of the
operator rf.buildNode points to, targetNode the scan being assigned. -/
def RuntimeFilter.assign (rf : RuntimeFilter) (buildNode : PhysicalHashJoin)
    (targetNode : PhysicalTableScan) (targetExpr : Column) : AssignResult :=
  let rf1 := { rf with targetNode := some targetNode.id }
  let targetNode1 :=
    if targetNode.runtimeFilterList.length == 0 then
      { targetNode with maxWaitTimeMs := 10000 }
    else
      targetNode
  let rf2 := { rf1 with targetExprList := rf1.targetExprList ++ [targetExpr] }
  let buildNode1 :=
    { buildNode with runtimeFilterList := buildNode.runtimeFilterList ++ [rf2] }
  let targetNode2 :=
    { targetNode1 with runtimeFilterList := targetNode1.runtimeFilterList ++ [rf2] }
  ⟨rf2, buildNode1, targetNode2⟩

/-- Clone from runtime_filter.go lines 176-201.  new(RuntimeFilter) zeroes
every field, so the clone has nil operator pointers; the detached ids are
resolved from the live pointer when present and otherwise copied from the
previously resolved field, the same rule for build and target; the
expression lists are deep-copied element-wise; type and mode are copied. -/
def RuntimeFilter.Clone (rf : RuntimeFilter) : RuntimeFilter :=
  { id := rf.id
    buildNode := none
    srcExprList := rf.srcExprList.map Column.clone
    targetExprList := rf.targetExprList.map Column.clone
    rfType := rf.rfType
    rfMode := rf.rfMode
    targetNode := none
    buildNodeID :=
      match rf.buildNode with
      | none => rf.buildNodeID
      | some jid => jid
    targetNodeID :=
      match rf.targetNode with
      | none => rf.targetNodeID
      | some tid => tid }

/-- Modelled from the spec: the wire library go-tipb is not under src.
Wire enum for the filter type. -/
inductive TipbRuntimeFilterType where
  | IN
  | MIN_MAX
deriving DecidableEq, Repr

/-- Modelled from the spec: the wire library go-tipb is not under src.
Wire enum for the filter mode. -/
inductive TipbRuntimeFilterMode where
  | LOCAL
  | GLOBAL
deriving DecidableEq, Repr

/-- Modelled from the spec: a wire-encoded expression (tipb.Expr) is
not inspected by this subsystem; only its production by the converter matters. -/
structure TipbExpr where
  payload : String
deriving DecidableEq, Repr

/-- The wire message tipb.RuntimeFilter, restricted to the fields the
serializer populates. -/
structure TipbRuntimeFilter where
  id : Int
  sourceExprList : List TipbExpr
  targetExprList : List TipbExpr
  sourceExecutorId : String
  targetExecutorId : String
  rfType : TipbRuntimeFilterType
  rfMode : TipbRuntimeFilterMode
deriving DecidableEq, Repr

/-- Go int32(rf.id): two-complement truncation of an int to 32 bits. -/
def int32cast (n : Int) : Int :=
  (n + 2 ^ 31) % 2 ^ 32 - 2 ^ 31

/-- Message of ErrInternal.GenWithStack for a source expression that the
converter rejected, from ToPB. -/
def srcExprPBErr (s : String) : String :=
  "failed to transform src expr " ++ s ++ " to pb in runtime filter"

/-- Message of ErrInternal.GenWithStack for a target expression that the
converter rejected, from ToPB. -/
def targetExprPBErr (s : String) : String :=
  "failed to transform target expr " ++ s ++ " to pb in runtime filter"

/-- One conversion loop of ToPB: convert each column through the supplied
converter pc (expression.PBConverter.ExprToPB, which returns nil on
failure, modelled as none), stopping at the first failure with the error
message mkErr applied to the text form of the offending column. -/
def exprListToPB (pc : Column → Option TipbExpr) (mkErr : String → String) :
    List Column → Except String (List TipbExpr)
  | [] => .ok []
  | c :: rest =>
    match pc c with
    | none => .error (mkErr c.text)
    | some pb =>
      match exprListToPB pc mkErr rest with
      | .error e => .error e
      | .ok pbs => .ok (pb :: pbs)

/-- ToPB from runtime_filter.go lines 217-259.  The source list is
converted first, then the target list, each failing with an internal
error naming the offending expression.  The Go code initializes the wire
type to IN and the wire mode to LOCAL and then switches over the named
values, so a mode that is neither RFLocal nor RFGlobal (the UNSET zero
value) falls through to LOCAL.  The executor id fields are fmt.Sprint of
the detached integer ids. -/
def RuntimeFilter.ToPB (pc : Column → Option TipbExpr) (rf : RuntimeFilter) :
    Except String TipbRuntimeFilter :=
  match exprListToPB pc srcExprPBErr rf.srcExprList with
  | .error e => .error e
  | .ok srcExprListPB =>
    match exprListToPB pc targetExprPBErr rf.targetExprList with
    | .error e => .error e
    | .ok targetExprListPB =>
      let rfTypePB :=
        match rf.rfType with
        | .In => TipbRuntimeFilterType.IN
        | .MinMax => TipbRuntimeFilterType.MIN_MAX
      let rfModePB :=
        match rf.rfMode with
        | .RFLocal => TipbRuntimeFilterMode.LOCAL
        | .RFGlobal => TipbRuntimeFilterMode.GLOBAL
        | .UNSET => TipbRuntimeFilterMode.LOCAL
      .ok
        { id := int32cast rf.id
          sourceExprList := srcExprListPB
          targetExprList := targetExprListPB
          sourceExecutorId := toString rf.buildNodeID
          targetExecutorId := toString rf.targetNodeID
          rfType := rfTypePB
          rfMode := rfModePB }

/-- RuntimeFilterListToPB from runtime_filter.go lines 204-214: convert
the filters in input order, returning on the first error with nothing
emitted. -/
def RuntimeFilterListToPB (pc : Column → Option TipbExpr) :
    List RuntimeFilter → Except String (List TipbRuntimeFilter)
  | [] => .ok []
  | runtimeFilter :: rest =>
    match runtimeFilter.ToPB pc with
    | .error e => .error e
    | .ok rfPB =>
      match RuntimeFilterListToPB pc rest with
      | .error e => .error e
      | .ok pbs => .ok (rfPB :: pbs)

theorem buildRFList_mem (bid : Int) (src : List Column) :
    ∀ (types : List RuntimeFilterType) (g : IDGenerator),
      ∀ rf ∈ (buildRFList bid src types g).1,
        rf.srcExprList = src ∧ rf.rfMode = .UNSET ∧ rf.buildNode = some bid ∧
        rf.targetExprList = [] ∧ rf.targetNode = none ∧
        rf.buildNodeID = 0 ∧ rf.targetNodeID = 0 := by
  intro types
  induction types with
  | nil => intro g rf h; simp [buildRFList] at h
  | cons t rest ih =>
    intro g rf h
    simp only [buildRFList, List.mem_cons] at h
    cases h with
    | inl h => subst h; exact ⟨rfl, rfl, rfl, rfl, rfl, rfl, rfl⟩
    | inr h => exact ih _ rf h

theorem buildRFList_map_rfType (bid : Int) (src : List Column) :
    ∀ (types : List RuntimeFilterType) (g : IDGenerator),
      ((buildRFList bid src types g).1.map RuntimeFilter.rfType) = types := by
  intro types
  induction types with
  | nil => intro g; simp [buildRFList]
  | cons t rest ih => intro g; simp only [buildRFList, List.map_cons]; rw [ih]

theorem buildRFList_id_gt (bid : Int) (src : List Column) :
    ∀ (types : List RuntimeFilterType) (g : IDGenerator),
      ∀ rf ∈ (buildRFList bid src types g).1, g.id < rf.id := by
  intro types
  induction types with
  | nil => intro g rf h; simp [buildRFList] at h
  | cons t rest ih =>
    intro g rf h
    simp only [buildRFList, List.mem_cons] at h
    cases h with
    | inl h => subst h; simp [IDGenerator.GetNextID]
    | inr h =>
      have h2 : g.id + 1 < rf.id := ih ⟨g.id + 1⟩ rf h
      omega

theorem buildRFList_ids_sorted (bid : Int) (src : List Column) :
    ∀ (types : List RuntimeFilterType) (g : IDGenerator),
      ((buildRFList bid src types g).1.map RuntimeFilter.id).Pairwise (· < ·) := by
  intro types
  induction types with
  | nil => intro g; simp [buildRFList]
  | cons t rest ih =>
    intro g
    simp only [buildRFList, List.map_cons]
    refine List.Pairwise.cons ?_ (ih ⟨g.id + 1⟩)
    intro x hx
    simp only [List.mem_map] at hx
    obtain ⟨rf, hrf, hid⟩ := hx
    have h2 : g.id + 1 < rf.id := buildRFList_id_gt bid src rest ⟨g.id + 1⟩ rf hrf
    simp only [IDGenerator.GetNextID]
    omega

theorem buildRFList_ids_pairwise (bid : Int) (src : List Column)
    (types : List RuntimeFilterType) (g : IDGenerator) :
    ((buildRFList bid src types g).1.map RuntimeFilter.id).Pairwise (· ≠ ·) := by
  have h := buildRFList_ids_sorted bid src types g
  exact h.imp (fun hab => by omega)

theorem buildRFList_length (bid : Int) (src : List Column)
    (types : List RuntimeFilterType) (g : IDGenerator) :
    (buildRFList bid src types g).1.length = types.length := by
  have h := buildRFList_map_rfType bid src types g
  calc (buildRFList bid src types g).1.length
      = ((buildRFList bid src types g).1.map RuntimeFilter.rfType).length := by
        rw [List.length_map]
    _ = types.length := by rw [h]

/-- On a predicate whose two arguments are column references, the
generator succeeds: the build-side argument becomes the sole source
expression and the opposite argument supplies the returned identity. -/
theorem newRuntimeFilter_on_columns (g : IDGenerator) (c0 c1 : Column)
    (j : PhysicalHashJoin) (pred : ScalarFunction)
    (hargs : pred.getArgs = [.column c0, .column c1]) :
    NewRuntimeFilter g pred j =
      .ok ((buildRFList j.id [if j.rightIsBuildSide then c1 else c0] j.rfTypes g).1,
           (if j.rightIsBuildSide then c0 else c1).uniqueID,
           (buildRFList j.id [if j.rightIsBuildSide then c1 else c0] j.rfTypes g).2) := by
  have h0 : pred.argColumn 0 = .ok c0 := by
    simp [ScalarFunction.argColumn, hargs, Expression.asColumn]
  have h1 : pred.argColumn 1 = .ok c1 := by
    simp [ScalarFunction.argColumn, hargs, Expression.asColumn]
  unfold NewRuntimeFilter
  by_cases hb : j.rightIsBuildSide <;> simp [hb, h0, h1]

/-- Any successful run of the generator produced its filters through the
fan-out loop over the enabled type list. -/
theorem newRuntimeFilter_ok_inv (g : IDGenerator) (pred : ScalarFunction)
    (j : PhysicalHashJoin) (filters : List RuntimeFilter) (uid : Int)
    (g2 : IDGenerator)
    (h : NewRuntimeFilter g pred j = .ok (filters, uid, g2)) :
    ∃ src : Column, filters = (buildRFList j.id [src] j.rfTypes g).1 := by
  unfold NewRuntimeFilter at h
  split at h
  · cases h1 : pred.argColumn 1 with
    | error e => rw [h1] at h; simp at h
    | ok src =>
      rw [h1] at h
      cases h0 : pred.argColumn 0 with
      | error e => rw [h0] at h; simp at h
      | ok tgt =>
        rw [h0] at h
        simp only [Except.ok.injEq, Prod.mk.injEq] at h
        exact ⟨src, h.1.symm⟩
  · cases h0 : pred.argColumn 0 with
    | error e => rw [h0] at h; simp at h
    | ok src =>
      rw [h0] at h
      cases h1 : pred.argColumn 1 with
      | error e => rw [h1] at h; simp at h
      | ok tgt =>
        rw [h1] at h
        simp only [Except.ok.injEq, Prod.mk.injEq] at h
        exact ⟨src, h.1.symm⟩

/-- When the converter accepts every column of the list, the conversion
loop succeeds and the output is positionally paired with the input. -/
theorem exprListToPB_ok_of_some (pc : Column → Option TipbExpr)
    (mkErr : String → String) :
    ∀ l : List Column, (∀ c ∈ l, (pc c).isSome) →
      ∃ r, exprListToPB pc mkErr l = .ok r ∧
        List.Forall₂ (fun c pb => pc c = some pb) l r := by
  intro l
  induction l with
  | nil => intro _; exact ⟨[], rfl, List.Forall₂.nil⟩
  | cons c rest ih =>
    intro hall
    obtain ⟨pb, hpb⟩ := Option.isSome_iff_exists.mp (hall c (by simp))
    obtain ⟨r, hr, hf⟩ := ih (fun x hx => hall x (List.mem_cons_of_mem c hx))
    refine ⟨pb :: r, ?_, List.Forall₂.cons hpb hf⟩
    simp only [exprListToPB, hpb, hr]

/-- A failure of the conversion loop names an offending column of the
input list through the supplied message maker. -/
theorem exprListToPB_error_inv (pc : Column → Option TipbExpr)
    (mkErr : String → String) :
    ∀ (l : List Column) (e : String), exprListToPB pc mkErr l = .error e →
      ∃ c ∈ l, pc c = none ∧ e = mkErr c.text := by
  intro l
  induction l with
  | nil => intro e h; simp [exprListToPB] at h
  | cons c rest ih =>
    intro e h
    cases hc : pc c with
    | none =>
      simp only [exprListToPB, hc, Except.error.injEq] at h
      exact ⟨c, by simp, hc, h.symm⟩
    | some pb =>
      simp only [exprListToPB, hc] at h
      cases hrest : exprListToPB pc mkErr rest with
      | error e2 =>
        rw [hrest] at h
        simp only [Except.error.injEq] at h
        obtain ⟨c2, hc2, hnone, he⟩ := ih e2 hrest
        exact ⟨c2, List.mem_cons_of_mem c hc2, hnone, h ▸ he⟩
      | ok r => rw [hrest] at h; simp at h

/-- When the converter accepts every expression of the filter, ToPB
succeeds; the message carries the truncated id, the stringified detached
operator ids, the wire mode mapped from the filter mode with UNSET
falling through to LOCAL, and positionally paired expression lists. -/
theorem toPB_ok_of_some (pc : Column → Option TipbExpr) (rf : RuntimeFilter)
    (hs : ∀ c ∈ rf.srcExprList, (pc c).isSome)
    (ht : ∀ c ∈ rf.targetExprList, (pc c).isSome) :
    ∃ msg, rf.ToPB pc = .ok msg ∧
      msg.id = int32cast rf.id ∧
      msg.sourceExecutorId = toString rf.buildNodeID ∧
      msg.targetExecutorId = toString rf.targetNodeID ∧
      msg.rfType = (match rf.rfType with
        | .In => TipbRuntimeFilterType.IN
        | .MinMax => TipbRuntimeFilterType.MIN_MAX) ∧
      msg.rfMode = (match rf.rfMode with
        | .RFLocal => TipbRuntimeFilterMode.LOCAL
        | .RFGlobal => TipbRuntimeFilterMode.GLOBAL
        | .UNSET => TipbRuntimeFilterMode.LOCAL) ∧
      List.Forall₂ (fun c pb => pc c = some pb) rf.srcExprList msg.sourceExprList ∧
      List.Forall₂ (fun c pb => pc c = some pb) rf.targetExprList msg.targetExprList := by
  obtain ⟨rs, hrs, hfs⟩ := exprListToPB_ok_of_some pc srcExprPBErr rf.srcExprList hs
  obtain ⟨rt, hrt, hft⟩ := exprListToPB_ok_of_some pc targetExprPBErr rf.targetExprList ht
  refine ⟨{ id := int32cast rf.id
            sourceExprList := rs
            targetExprList := rt
            sourceExecutorId := toString rf.buildNodeID
            targetExecutorId := toString rf.targetNodeID
            rfType := match rf.rfType with
              | .In => TipbRuntimeFilterType.IN
              | .MinMax => TipbRuntimeFilterType.MIN_MAX
            rfMode := match rf.rfMode with
              | .RFLocal => TipbRuntimeFilterMode.LOCAL
              | .RFGlobal => TipbRuntimeFilterMode.GLOBAL
              | .UNSET => TipbRuntimeFilterMode.LOCAL }, ?_, rfl, rfl, rfl, rfl, rfl, hfs, hft⟩
  simp only [RuntimeFilter.ToPB, hrs, hrt]

/-- A ToPB failure names an offending expression of the filter and the
list, source or target, it came from. -/
theorem toPB_error_inv (pc : Column → Option TipbExpr) (rf : RuntimeFilter)
    (e : String) (h : rf.ToPB pc = .error e) :
    (∃ c ∈ rf.srcExprList, pc c = none ∧ e = srcExprPBErr c.text) ∨
    (∃ c ∈ rf.targetExprList, pc c = none ∧ e = targetExprPBErr c.text) := by
  unfold RuntimeFilter.ToPB at h
  cases hsrc : exprListToPB pc srcExprPBErr rf.srcExprList with
  | error e1 =>
    rw [hsrc] at h
    simp only [Except.error.injEq] at h
    exact Or.inl (h ▸ exprListToPB_error_inv pc srcExprPBErr rf.srcExprList e1 hsrc)
  | ok rs =>
    rw [hsrc] at h
    cases htgt : exprListToPB pc targetExprPBErr rf.targetExprList with
    | error e2 =>
      rw [htgt] at h
      simp only [Except.error.injEq] at h
      exact Or.inr (h ▸ exprListToPB_error_inv pc targetExprPBErr rf.targetExprList e2 htgt)
    | ok rt => rw [htgt] at h; simp at h

/-- A successful list serialization pairs the wire messages positionally
with the input filters, in order. -/
theorem runtimeFilterListToPB_ok_inv (pc : Column → Option TipbExpr) :
    ∀ (rfs : List RuntimeFilter) (r : List TipbRuntimeFilter),
      RuntimeFilterListToPB pc rfs = .ok r →
      List.Forall₂ (fun rf pb => rf.ToPB pc = .ok pb) rfs r := by
  intro rfs
  induction rfs with
  | nil =>
    intro r h
    simp only [RuntimeFilterListToPB, Except.ok.injEq] at h
    rw [← h]
    exact List.Forall₂.nil
  | cons rf rest ih =>
    intro r h
    cases hrf : rf.ToPB pc with
    | error e => simp only [RuntimeFilterListToPB, hrf] at h; simp at h
    | ok pb =>
      simp only [RuntimeFilterListToPB, hrf] at h
      cases hrest : RuntimeFilterListToPB pc rest with
      | error e => rw [hrest] at h; simp at h
      | ok pbs =>
        rw [hrest] at h
        simp only [Except.ok.injEq] at h
        rw [← h]
        exact List.Forall₂.cons hrf (ih pbs hrest)

/-- A failed list serialization returns the ToPB error of some filter of
the input list. -/
theorem runtimeFilterListToPB_error_inv (pc : Column → Option TipbExpr) :
    ∀ (rfs : List RuntimeFilter) (e : String),
      RuntimeFilterListToPB pc rfs = .error e →
      ∃ rf ∈ rfs, rf.ToPB pc = .error e := by
  intro rfs
  induction rfs with
  | nil => intro e h; simp [RuntimeFilterListToPB] at h
  | cons rf rest ih =>
    intro e h
    cases hrf : rf.ToPB pc with
    | error e1 =>
      simp only [RuntimeFilterListToPB, hrf, Except.error.injEq] at h
      exact ⟨rf, by simp, h ▸ hrf⟩
    | ok pb =>
      simp only [RuntimeFilterListToPB, hrf] at h
      cases hrest : RuntimeFilterListToPB pc rest with
      | error e2 =>
        rw [hrest] at h
        simp only [Except.error.injEq] at h
        obtain ⟨rf2, hmem, herr⟩ := ih e2 hrest
        exact ⟨rf2, List.mem_cons_of_mem rf hmem, h ▸ herr⟩
      | ok pbs => rw [hrest] at h; simp at h

/-! Claim theorems. -/

/-- C1: for every two-argument equality predicate between two column
references and every hash join with a determined build side,
NewRuntimeFilter selects as the single sourceExpressions entry the
predicate argument on the build side (the second argument when the right
side is the build side, the first otherwise) and returns as the target
column identity the unique identity of the column of the opposite
argument. -/
theorem newRuntimeFilter_selects_build_side_source
    (g : IDGenerator) (c0 c1 : Column) (j : PhysicalHashJoin)
    (pred : ScalarFunction)
    (hargs : pred.getArgs = [.column c0, .column c1]) :
    ∃ filters g2,
      NewRuntimeFilter g pred j =
        .ok (filters, (if j.rightIsBuildSide then c0 else c1).uniqueID, g2) ∧
      ∀ rf ∈ filters,
        rf.srcExprList = [if j.rightIsBuildSide then c1 else c0] := by
  refine ⟨_, _, newRuntimeFilter_on_columns g c0 c1 j pred hargs, ?_⟩
  intro rf hrf
  exact (buildRFList_mem j.id _ j.rfTypes g rf hrf).1

/-- C1 witness: hash join on t1.k1 = t2.k1 with the right side (t2) as
build side; the sole source expression is t2.k1 and the returned identity
is that of t1.k1. -/
theorem newRuntimeFilter_selects_build_side_source_witness :
    ∃ filters g2,
      NewRuntimeFilter ⟨0⟩
          ⟨[.column ⟨1, "t1.k1"⟩, .column ⟨2, "t2.k1"⟩]⟩
          ⟨2, true, [.In], []⟩ =
        .ok (filters,
          (if (⟨2, true, [.In], []⟩ : PhysicalHashJoin).rightIsBuildSide then
            (⟨1, "t1.k1"⟩ : Column) else ⟨2, "t2.k1"⟩).uniqueID, g2) ∧
      ∀ rf ∈ filters,
        rf.srcExprList =
          [if (⟨2, true, [.In], []⟩ : PhysicalHashJoin).rightIsBuildSide then
            (⟨2, "t2.k1"⟩ : Column) else ⟨1, "t1.k1"⟩] :=
  newRuntimeFilter_selects_build_side_source ⟨0⟩ ⟨1, "t1.k1"⟩ ⟨2, "t2.k1"⟩
    ⟨2, true, [.In], []⟩ ⟨[.column ⟨1, "t1.k1"⟩, .column ⟨2, "t2.k1"⟩]⟩ rfl

/-- C2: on one equi-join predicate between two column references, the
generator returns one RuntimeFilter per enabled filter type, in the order
of the enabled-type configuration list, each with a fresh pairwise
distinct id, filterMode UNSET, and a source expression list of length
one. -/
theorem newRuntimeFilter_fanout_per_enabled_type
    (g : IDGenerator) (c0 c1 : Column) (j : PhysicalHashJoin)
    (pred : ScalarFunction)
    (hargs : pred.getArgs = [.column c0, .column c1]) :
    ∃ filters uid g2,
      NewRuntimeFilter g pred j = .ok (filters, uid, g2) ∧
      filters.length = j.rfTypes.length ∧
      filters.map RuntimeFilter.rfType = j.rfTypes ∧
      (filters.map RuntimeFilter.id).Pairwise (· ≠ ·) ∧
      ∀ rf ∈ filters, rf.rfMode = .UNSET ∧ rf.srcExprList.length = 1 := by
  refine ⟨_, _, _, newRuntimeFilter_on_columns g c0 c1 j pred hargs,
    buildRFList_length j.id _ j.rfTypes g,
    buildRFList_map_rfType j.id _ j.rfTypes g,
    buildRFList_ids_pairwise j.id _ j.rfTypes g, ?_⟩
  intro rf hrf
  have h := buildRFList_mem j.id _ j.rfTypes g rf hrf
  exact ⟨h.2.1, by rw [h.1]; rfl⟩

/-- C2 witness: two enabled types IN and MIN_MAX give two filters, in
configuration order, with distinct ids, UNSET mode and singleton source
lists. -/
theorem newRuntimeFilter_fanout_per_enabled_type_witness :
    ∃ filters uid g2,
      NewRuntimeFilter ⟨0⟩
          ⟨[.column ⟨1, "t1.k1"⟩, .column ⟨2, "t2.k1"⟩]⟩
          ⟨2, true, [.In, .MinMax], []⟩ =
        .ok (filters, uid, g2) ∧
      filters.length =
        (⟨2, true, [.In, .MinMax], []⟩ : PhysicalHashJoin).rfTypes.length ∧
      filters.map RuntimeFilter.rfType =
        (⟨2, true, [.In, .MinMax], []⟩ : PhysicalHashJoin).rfTypes ∧
      (filters.map RuntimeFilter.id).Pairwise (· ≠ ·) ∧
      ∀ rf ∈ filters, rf.rfMode = .UNSET ∧ rf.srcExprList.length = 1 :=
  newRuntimeFilter_fanout_per_enabled_type ⟨0⟩ ⟨1, "t1.k1"⟩ ⟨2, "t2.k1"⟩
    ⟨2, true, [.In, .MinMax], []⟩
    ⟨[.column ⟨1, "t1.k1"⟩, .column ⟨2, "t2.k1"⟩]⟩ rfl

/-- Concrete filter that already has a target operator, for the C3
counterexample. -/
def c3rf : RuntimeFilter :=
  { id := 1, buildNode := some 2, srcExprList := [⟨3, "t2.k1"⟩],
    targetExprList := [⟨4, "t1.k1"⟩], rfType := .In, rfMode := .UNSET,
    targetNode := some 5, buildNodeID := 0, targetNodeID := 0 }

/-- Build join and a second candidate scan for the C3 counterexample. -/
def c3join : PhysicalHashJoin :=
  { id := 2, rightIsBuildSide := true, rfTypes := [.In],
    runtimeFilterList := [c3rf] }

/-- Second candidate scan for the C3 counterexample. -/
def c3scan : PhysicalTableScan :=
  { id := 6, runtimeFilterList := [], maxWaitTimeMs := 0 }

/-- C3 counterexample: assign has no error path; called on a filter whose
target operator is already set it completes, overwrites the target
pointer, appends a second target expression and appends the filter again
to the operator lists, instead of failing with a state error. -/
theorem assign_second_call_does_not_fail_counterexample :
    c3rf.targetNode = some 5 ∧
    (c3rf.assign c3join c3scan ⟨7, "t3.k1"⟩).rf.targetNode = some 6 ∧
    (c3rf.assign c3join c3scan ⟨7, "t3.k1"⟩).rf.targetExprList.length = 2 ∧
    (c3rf.assign c3join c3scan ⟨7, "t3.k1"⟩).buildNode.runtimeFilterList.length = 2 :=
  ⟨rfl, rfl, rfl, rfl⟩

/-- C3 amended: a second assign call on a filter that already has a
target operator does not fail; it completes, overwriting the target
pointer with the new scan, appending a further target expression, and
appending the filter once more to the build and target operator lists. -/
theorem assign_second_call_overwrites_and_double_links
    (rf : RuntimeFilter) (t : Int) (j : PhysicalHashJoin)
    (s : PhysicalTableScan) (e : Column) (_h : rf.targetNode = some t) :
    (rf.assign j s e).rf.targetNode = some s.id ∧
    (rf.assign j s e).rf.targetExprList = rf.targetExprList ++ [e] ∧
    (rf.assign j s e).buildNode.runtimeFilterList.length =
      j.runtimeFilterList.length + 1 ∧
    (rf.assign j s e).targetNode.runtimeFilterList.length =
      s.runtimeFilterList.length + 1 := by
  refine ⟨rfl, rfl, by simp [RuntimeFilter.assign], ?_⟩
  unfold RuntimeFilter.assign
  by_cases hlen : s.runtimeFilterList.length == 0 <;> simp [hlen]

/-- C3 witness for the amended theorem: the already-assigned filter of
the counterexample input. -/
theorem assign_second_call_overwrites_and_double_links_witness :
    (c3rf.assign c3join c3scan ⟨7, "t3.k1"⟩).rf.targetNode = some c3scan.id ∧
    (c3rf.assign c3join c3scan ⟨7, "t3.k1"⟩).rf.targetExprList =
      c3rf.targetExprList ++ [⟨7, "t3.k1"⟩] ∧
    (c3rf.assign c3join c3scan ⟨7, "t3.k1"⟩).buildNode.runtimeFilterList.length =
      c3join.runtimeFilterList.length + 1 ∧
    (c3rf.assign c3join c3scan ⟨7, "t3.k1"⟩).targetNode.runtimeFilterList.length =
      c3scan.runtimeFilterList.length + 1 :=
  assign_second_call_overwrites_and_double_links c3rf 5 c3join c3scan
    ⟨7, "t3.k1"⟩ rfl

/-- Equi-join predicate for the C4 counterexample. -/
def c4pred : ScalarFunction :=
  ⟨[.column ⟨1, "t1.k1"⟩, .column ⟨2, "t2.k1"⟩]⟩

/-- Build join for the C4 counterexample. -/
def c4join : PhysicalHashJoin :=
  { id := 2, rightIsBuildSide := true, rfTypes := [.In],
    runtimeFilterList := [] }

/-- Target scan for the C4 counterexample. -/
def c4scan : PhysicalTableScan :=
  { id := 0, runtimeFilterList := [], maxWaitTimeMs := 0 }

/-- The single filter the generator produces on the C4 input. -/
def c4rf : RuntimeFilter :=
  { id := 1, buildNode := some 2, srcExprList := [⟨2, "t2.k1"⟩],
    targetExprList := [], rfType := .In, rfMode := .UNSET,
    targetNode := none, buildNodeID := 0, targetNodeID := 0 }

/-- C4 counterexample: a filter produced by the generator still has
filterMode UNSET after exactly one assign call; assign aligns the list
lengths but never touches the mode. -/
theorem assign_leaves_mode_unset_counterexample :
    NewRuntimeFilter ⟨0⟩ c4pred c4join = .ok ([c4rf], 1, ⟨1⟩) ∧
    (c4rf.assign c4join c4scan ⟨1, "t1.k1"⟩).rf.targetExprList.length =
      c4rf.srcExprList.length ∧
    (c4rf.assign c4join c4scan ⟨1, "t1.k1"⟩).rf.rfMode = .UNSET :=
  ⟨rfl, rfl, rfl⟩

/-- C4 amended: for every filter produced by the generator, after exactly
one assign call the target expression list has the same length as the
source expression list, but assign leaves filterMode unchanged, so it is
still UNSET (the mode is set elsewhere, not by assign). -/
theorem assign_aligns_lengths_mode_unchanged
    (g g2 : IDGenerator) (pred : ScalarFunction) (j j2 : PhysicalHashJoin)
    (s : PhysicalTableScan) (e : Column) (filters : List RuntimeFilter)
    (uid : Int) (rf : RuntimeFilter)
    (hgen : NewRuntimeFilter g pred j = .ok (filters, uid, g2))
    (hmem : rf ∈ filters) :
    (rf.assign j2 s e).rf.targetExprList.length =
      (rf.assign j2 s e).rf.srcExprList.length ∧
    (rf.assign j2 s e).rf.rfMode = .UNSET := by
  obtain ⟨src, hf⟩ := newRuntimeFilter_ok_inv g pred j filters uid g2 hgen
  have h := buildRFList_mem j.id [src] j.rfTypes g rf (hf ▸ hmem)
  have htgt : (rf.assign j2 s e).rf.targetExprList =
      rf.targetExprList ++ [e] := rfl
  have hsrc : (rf.assign j2 s e).rf.srcExprList = rf.srcExprList := rfl
  have hmode : (rf.assign j2 s e).rf.rfMode = rf.rfMode := rfl
  refine ⟨?_, by rw [hmode, h.2.1]⟩
  rw [htgt, hsrc, h.1, h.2.2.2.1]
  rfl

/-- C4 witness for the amended theorem: the concrete generator run of the
counterexample. -/
theorem assign_aligns_lengths_mode_unchanged_witness :
    (c4rf.assign c4join c4scan ⟨1, "t1.k1"⟩).rf.targetExprList.length =
      (c4rf.assign c4join c4scan ⟨1, "t1.k1"⟩).rf.srcExprList.length ∧
    (c4rf.assign c4join c4scan ⟨1, "t1.k1"⟩).rf.rfMode = .UNSET :=
  assign_aligns_lengths_mode_unchanged ⟨0⟩ ⟨1⟩ c4pred c4join c4join c4scan
    ⟨1, "t1.k1"⟩ [c4rf] 1 c4rf rfl (by simp)

/-- C5: assigning a filter to a scan whose inbound list is empty sets the
wait budget to the fixed 10000 ms default; a second filter assigned to
the same scan, and generally any assignment to a scan with a nonempty
inbound list, leaves the already-set budget unchanged. -/
theorem assign_wait_budget_first_sets_second_keeps
    (rf rf2 rf3 : RuntimeFilter) (j j2 j3 : PhysicalHashJoin)
    (s s3 : PhysicalTableScan) (e e2 e3 : Column)
    (h : s.runtimeFilterList = []) (h3 : s3.runtimeFilterList ≠ []) :
    (rf.assign j s e).targetNode.maxWaitTimeMs = 10000 ∧
    (rf2.assign j2 (rf.assign j s e).targetNode e2).targetNode.maxWaitTimeMs =
      10000 ∧
    (rf3.assign j3 s3 e3).targetNode.maxWaitTimeMs = s3.maxWaitTimeMs := by
  refine ⟨?_, ?_, ?_⟩
  · simp [RuntimeFilter.assign, h]
  · simp [RuntimeFilter.assign, h]
  · simp [RuntimeFilter.assign, h3]

/-- C5 witness: a fresh scan gets the 10000 ms budget on first
assignment; the scan state after the first assignment keeps it on the
second; a scan with a nonempty inbound list keeps its budget. -/
theorem assign_wait_budget_first_sets_second_keeps_witness :
    ((⟨1, some 2, [⟨3, "t2.k1"⟩], [], .In, .UNSET, none, 0, 0⟩ :
        RuntimeFilter).assign c3join
        ⟨9, [], 0⟩ ⟨4, "t1.k1"⟩).targetNode.maxWaitTimeMs = 10000 ∧
    ((⟨8, some 2, [⟨3, "t2.k1"⟩], [], .MinMax, .UNSET, none, 0, 0⟩ :
        RuntimeFilter).assign c3join
        ((⟨1, some 2, [⟨3, "t2.k1"⟩], [], .In, .UNSET, none, 0, 0⟩ :
          RuntimeFilter).assign c3join
          ⟨9, [], 0⟩ ⟨4, "t1.k1"⟩).targetNode
        ⟨4, "t1.k1"⟩).targetNode.maxWaitTimeMs = 10000 ∧
    ((⟨8, some 2, [⟨3, "t2.k1"⟩], [], .MinMax, .UNSET, none, 0, 0⟩ :
        RuntimeFilter).assign c3join
        ⟨9, [c3rf], 5555⟩ ⟨4, "t1.k1"⟩).targetNode.maxWaitTimeMs =
      (⟨9, [c3rf], 5555⟩ : PhysicalTableScan).maxWaitTimeMs :=
  assign_wait_budget_first_sets_second_keeps
    ⟨1, some 2, [⟨3, "t2.k1"⟩], [], .In, .UNSET, none, 0, 0⟩
    ⟨8, some 2, [⟨3, "t2.k1"⟩], [], .MinMax, .UNSET, none, 0, 0⟩
    ⟨8, some 2, [⟨3, "t2.k1"⟩], [], .MinMax, .UNSET, none, 0, 0⟩
    c3join c3join c3join ⟨9, [], 0⟩ ⟨9, [c3rf], 5555⟩
    ⟨4, "t1.k1"⟩ ⟨4, "t1.k1"⟩ ⟨4, "t1.k1"⟩ rfl (by simp)

/-- Converter that accepts every column, for the C6 counterexample. -/
def c6pc : Column → Option TipbExpr := fun c => some ⟨c.text⟩

/-- Assigned-shape filter whose mode is still UNSET, for the C6
counterexample. -/
def c6rf : RuntimeFilter :=
  { id := 1, buildNode := some 2, srcExprList := [⟨3, "t2.k1"⟩],
    targetExprList := [⟨4, "t1.k1"⟩], rfType := .In, rfMode := .UNSET,
    targetNode := some 5, buildNodeID := 0, targetNodeID := 0 }

/-- C6 counterexample: serializing a filter whose mode is still UNSET is
not surfaced as an internal error; ToPB succeeds and silently emits the
initialized default wire mode LOCAL. -/
theorem toPB_unset_mode_no_error_counterexample :
    c6rf.rfMode = .UNSET ∧
    c6rf.ToPB c6pc =
      .ok { id := 1, sourceExprList := [⟨"t2.k1"⟩],
            targetExprList := [⟨"t1.k1"⟩], sourceExecutorId := "0",
            targetExecutorId := "0", rfType := .IN, rfMode := .LOCAL } :=
  ⟨rfl, rfl⟩

/-- C6 amended: serializing a filter whose mode is still UNSET does not
fail; the serializer silently emits the initialized default wire mode
LOCAL for it, while LOCAL maps to LOCAL and GLOBAL maps to GLOBAL. -/
theorem toPB_mode_mapping_with_unset_default
    (pc : Column → Option TipbExpr) (rf : RuntimeFilter)
    (hs : ∀ c ∈ rf.srcExprList, (pc c).isSome)
    (ht : ∀ c ∈ rf.targetExprList, (pc c).isSome) :
    ∃ msg, rf.ToPB pc = .ok msg ∧
      msg.rfMode = (match rf.rfMode with
        | .RFLocal => TipbRuntimeFilterMode.LOCAL
        | .RFGlobal => TipbRuntimeFilterMode.GLOBAL
        | .UNSET => TipbRuntimeFilterMode.LOCAL) := by
  obtain ⟨msg, h1, _, _, _, _, hmode, _, _⟩ := toPB_ok_of_some pc rf hs ht
  exact ⟨msg, h1, hmode⟩

/-- C6 witness for the amended theorem: the UNSET filter of the
counterexample serializes with wire mode LOCAL. -/
theorem toPB_mode_mapping_with_unset_default_witness :
    ∃ msg, c6rf.ToPB c6pc = .ok msg ∧
      msg.rfMode = (match c6rf.rfMode with
        | .RFLocal => TipbRuntimeFilterMode.LOCAL
        | .RFGlobal => TipbRuntimeFilterMode.GLOBAL
        | .UNSET => TipbRuntimeFilterMode.LOCAL) :=
  toPB_mode_mapping_with_unset_default c6pc c6rf
    (by intro c h; simp [c6pc]) (by intro c h; simp [c6pc])

/-- C7: the list serializer returns the empty list on empty input;
otherwise it either returns one wire message per filter, positionally
paired with the input list in its order, or fails with the conversion
error of some input filter, an error that names the text form of the
offending expression and whether it came from the source or the target
list, and commits no output. -/
theorem runtimeFilterListToPB_ordered_or_atomic_failure
    (pc : Column → Option TipbExpr) (rfs : List RuntimeFilter) :
    RuntimeFilterListToPB pc [] = .ok ([] : List TipbRuntimeFilter) ∧
    ((∃ r, RuntimeFilterListToPB pc rfs = .ok r ∧
        List.Forall₂ (fun rf pb => rf.ToPB pc = .ok pb) rfs r) ∨
     (∃ e, RuntimeFilterListToPB pc rfs = .error e ∧
        ∃ rf ∈ rfs,
          rf.ToPB pc = .error e ∧
          ((∃ c ∈ rf.srcExprList, pc c = none ∧ e = srcExprPBErr c.text) ∨
           (∃ c ∈ rf.targetExprList, pc c = none ∧
              e = targetExprPBErr c.text)))) := by
  refine ⟨rfl, ?_⟩
  cases hres : RuntimeFilterListToPB pc rfs with
  | ok r => exact Or.inl ⟨r, rfl, runtimeFilterListToPB_ok_inv pc rfs r hres⟩
  | error e =>
    obtain ⟨rf, hmem, herr⟩ := runtimeFilterListToPB_error_inv pc rfs e hres
    exact Or.inr ⟨e, rfl, rf, hmem, herr, toPB_error_inv pc rf e herr⟩

/-- C8: the generator fails with a type-mismatch error when either
argument of the equi-join predicate is not a column reference. -/
theorem newRuntimeFilter_non_column_argument_fails
    (g : IDGenerator) (pred : ScalarFunction) (j : PhysicalHashJoin)
    (e0 e1 : Expression) (hargs : pred.getArgs = [e0, e1])
    (h : (∀ c, e0 ≠ .column c) ∨ (∀ c, e1 ≠ .column c)) :
    ∃ msg, NewRuntimeFilter g pred j = .error msg := by
  have h0 : pred.argColumn 0 = e0.asColumn := by
    simp [ScalarFunction.argColumn, hargs]
  have h1 : pred.argColumn 1 = e1.asColumn := by
    simp [ScalarFunction.argColumn, hargs]
  cases e0 with
  | column c0 =>
    cases e1 with
    | column c1 =>
      exfalso
      rcases h with h | h
      · exact h c0 rfl
      · exact h c1 rfl
    | other d1 =>
      refine ⟨"interface conversion: " ++ d1 ++ " is not *expression.Column", ?_⟩
      by_cases hb : j.rightIsBuildSide
      · simp [NewRuntimeFilter, hb, h1, Expression.asColumn]
      · simp [NewRuntimeFilter, hb, h0, h1, Expression.asColumn]
  | other d0 =>
    cases e1 with
    | column c1 =>
      refine ⟨"interface conversion: " ++ d0 ++ " is not *expression.Column", ?_⟩
      by_cases hb : j.rightIsBuildSide
      · simp [NewRuntimeFilter, hb, h0, h1, Expression.asColumn]
      · simp [NewRuntimeFilter, hb, h0, Expression.asColumn]
    | other d1 =>
      by_cases hb : j.rightIsBuildSide
      · refine ⟨"interface conversion: " ++ d1 ++ " is not *expression.Column", ?_⟩
        simp [NewRuntimeFilter, hb, h0, h1, Expression.asColumn]
      · refine ⟨"interface conversion: " ++ d0 ++ " is not *expression.Column", ?_⟩
        simp [NewRuntimeFilter, hb, h0, Expression.asColumn]

/-- C8 witness: a predicate whose first argument is a constant, not a
column, makes the generator fail. -/
theorem newRuntimeFilter_non_column_argument_fails_witness :
    ∃ msg,
      NewRuntimeFilter ⟨0⟩
        ⟨[.other "Constant(1)", .column ⟨2, "t2.k1"⟩]⟩
        ⟨2, true, [.In], []⟩ = .error msg :=
  newRuntimeFilter_non_column_argument_fails ⟨0⟩
    ⟨[.other "Constant(1)", .column ⟨2, "t2.k1"⟩]⟩ ⟨2, true, [.In], []⟩
    (.other "Constant(1)") (.column ⟨2, "t2.k1"⟩) rfl
    (Or.inl (fun c => by simp))

/-- Detached filter with a previously resolved target id 5 and no live
target operator, for the C9 counterexample. -/
def c9f5 : RuntimeFilter :=
  { id := 1, buildNode := none, srcExprList := [⟨3, "t2.k1"⟩],
    targetExprList := [⟨4, "t1.k1"⟩], rfType := .In, rfMode := .RFLocal,
    targetNode := none, buildNodeID := 3, targetNodeID := 5 }

/-- Detached filter with a previously resolved target id 7 and no live
target operator, for the C9 counterexample. -/
def c9f7 : RuntimeFilter :=
  { id := 2, buildNode := none, srcExprList := [⟨3, "t2.k1"⟩],
    targetExprList := [⟨4, "t1.k1"⟩], rfType := .In, rfMode := .RFLocal,
    targetNode := none, buildNodeID := 3, targetNodeID := 7 }

/-- C9 counterexample: cloning a filter with an absent target operator
copies the previously resolved target id, exactly as for the build id;
two such filters clone to different target ids, so no fixed no-target
sentinel value is emitted. -/
theorem clone_no_target_sentinel_counterexample :
    c9f5.targetNode = none ∧ c9f7.targetNode = none ∧
    c9f5.Clone.targetNodeID = 5 ∧ c9f7.Clone.targetNodeID = 7 ∧
    c9f5.Clone.targetNodeID ≠ c9f7.Clone.targetNodeID :=
  ⟨rfl, rfl, rfl, rfl, by decide⟩

/-- C9 amended: clone keeps id, type and mode, deep-copies the expression
lists to value-equal lists, drops the live operator pointers, resolves
the build id from the live build operator when present and otherwise
copies the previously resolved build id, and resolves the target id by
the same rule, an absent target operator yielding the previously
resolved target id rather than a distinguished sentinel. -/
theorem clone_value_copy_and_id_resolution (rf : RuntimeFilter) :
    rf.Clone.id = rf.id ∧
    rf.Clone.rfType = rf.rfType ∧
    rf.Clone.rfMode = rf.rfMode ∧
    rf.Clone.srcExprList = rf.srcExprList ∧
    rf.Clone.targetExprList = rf.targetExprList ∧
    rf.Clone.buildNode = none ∧
    rf.Clone.targetNode = none ∧
    rf.Clone.buildNodeID =
      (match rf.buildNode with
        | none => rf.buildNodeID
        | some jid => jid) ∧
    rf.Clone.targetNodeID =
      (match rf.targetNode with
        | none => rf.targetNodeID
        | some tid => tid) := by
  have hclone : ∀ l : List Column, l.map Column.clone = l := by
    intro l
    induction l with
    | nil => rfl
    | cons c rest ih => simp only [List.map_cons, ih]; rfl
  exact ⟨rfl, rfl, rfl, hclone rf.srcExprList, hclone rf.targetExprList,
    rfl, rfl, rfl, rfl⟩

/-- C10: the wire executor id fields are stringified from the detached
integer fields, which only Clone populates; a filter coming straight from
the generator, whether or not it has since been assigned to a live
target scan, serializes successfully with "0" in both executor id
fields, regardless of the live operators it references. -/
theorem toPB_never_cloned_emits_zero_executor_ids
    (g g2 : IDGenerator) (pred : ScalarFunction) (j j2 : PhysicalHashJoin)
    (s : PhysicalTableScan) (e : Column) (filters : List RuntimeFilter)
    (uid : Int) (rf : RuntimeFilter)
    (hgen : NewRuntimeFilter g pred j = .ok (filters, uid, g2))
    (hmem : rf ∈ filters)
    (pc : Column → Option TipbExpr) (hpc : ∀ c, (pc c).isSome) :
    (∃ msg, rf.ToPB pc = .ok msg ∧
       msg.sourceExecutorId = "0" ∧ msg.targetExecutorId = "0") ∧
    (∃ msg2, (rf.assign j2 s e).rf.ToPB pc = .ok msg2 ∧
       msg2.sourceExecutorId = "0" ∧ msg2.targetExecutorId = "0") := by
  obtain ⟨src, hf⟩ := newRuntimeFilter_ok_inv g pred j filters uid g2 hgen
  have hz := buildRFList_mem j.id [src] j.rfTypes g rf (hf ▸ hmem)
  have hbid : rf.buildNodeID = 0 := hz.2.2.2.2.2.1
  have htid : rf.targetNodeID = 0 := hz.2.2.2.2.2.2
  constructor
  · obtain ⟨msg, h1, _, hsrcid, htgtid, _, _, _, _⟩ :=
      toPB_ok_of_some pc rf (fun c _ => hpc c) (fun c _ => hpc c)
    refine ⟨msg, h1, ?_, ?_⟩
    · rw [hsrcid, hbid]; rfl
    · rw [htgtid, htid]; rfl
  · have hbid2 : (rf.assign j2 s e).rf.buildNodeID = rf.buildNodeID := rfl
    have htid2 : (rf.assign j2 s e).rf.targetNodeID = rf.targetNodeID := rfl
    obtain ⟨msg2, h1, _, hsrcid, htgtid, _, _, _, _⟩ :=
      toPB_ok_of_some pc ((rf.assign j2 s e).rf)
        (fun c _ => hpc c) (fun c _ => hpc c)
    refine ⟨msg2, h1, ?_, ?_⟩
    · rw [hsrcid, hbid2, hbid]; rfl
    · rw [htgtid, htid2, htid]; rfl

/-- C10 witness: the generator filter of the C4 input, before and after
one assignment, serializes with "0" in both executor id fields. -/
theorem toPB_never_cloned_emits_zero_executor_ids_witness :
    (∃ msg, c4rf.ToPB c6pc = .ok msg ∧
       msg.sourceExecutorId = "0" ∧ msg.targetExecutorId = "0") ∧
    (∃ msg2, (c4rf.assign c4join c4scan ⟨1, "t1.k1"⟩).rf.ToPB c6pc = .ok msg2 ∧
       msg2.sourceExecutorId = "0" ∧ msg2.targetExecutorId = "0") :=
  toPB_never_cloned_emits_zero_executor_ids ⟨0⟩ ⟨1⟩ c4pred c4join c4join
    c4scan ⟨1, "t1.k1"⟩ [c4rf] 1 c4rf rfl (by simp) c6pc
    (fun c => by simp [c6pc])
